import Mathlib

/-!
Verification development for the inventory_hub barcode-identity and
receiving-reconciliation engine.

The definitions below are a shallow embedding of the Python sources:
  api/inventory_hub/services/identifiers.py   (classifier, splitter, repository)
  api/inventory_hub/routers/receiving.py      (JSON-file-backed receiving router)
  api/inventory_hub/routers/receiving_db.py   (PostgreSQL-backed receiving router)
  api/inventory_hub/db_models.py              (ProductIdentifier uniqueness indexes)

Python strings are modelled as Lean String (a wrapper over List Char);
Python floats / Decimals holding quantities are modelled as Rat, so that
arithmetic is exact; statuses that the code stores as strings stay strings.
Both receiving routers are mounted alternatives (main.py picks one by the
USE_POSTGRES setting), so properties about "the" engine are checked against
both embeddings.
-/

/- ======================================================================
   Section 1: Python string primitives
   ====================================================================== -/

/-- Python's default str.strip character class (whitespace). -/
def isPySpace (c : Char) : Bool :=
  c.toNat = 32 || c.toNat = 9 || c.toNat = 10 || c.toNat = 13 || c.toNat = 11 || c.toNat = 12

/-- ASCII decimal digit, the digits produced by the barcode regexes. -/
def isPyDigit (c : Char) : Bool :=
  decide (48 ≤ c.toNat) && decide (c.toNat ≤ 57)

/-- Numeric value of a digit character, Python int(d). -/
def digitVal (c : Char) : Nat := c.toNat - 48

/-- Python str.strip() on the underlying character list. -/
def pyStripL (l : List Char) : List Char :=
  ((l.dropWhile isPySpace).reverse.dropWhile isPySpace).reverse

/-- Python str.strip() on strings. -/
def pyStrip (s : String) : String := ⟨pyStripL s.data⟩

/- ======================================================================
   Section 2: identifier classification
   (services/identifiers.py, ProductIdentifierService)
   ====================================================================== -/

/-- db_models.IdentifierType enumeration. -/
inductive IdentifierType where
  | ean
  | upc
  | unverified_barcode
  | supplier_sku
  | internal_sku
  | manufacturer
  | custom
deriving DecidableEq, Repr

/-- Embedding of the regex match r-string anchored digit pattern of a fixed
length: the code is exactly n ASCII digits. -/
def digitsOfLen (n : Nat) (s : String) : Bool :=
  decide (s.data.length = n) && s.data.all isPyDigit

/-- Digit string whose length lies in a closed interval, the unverified
barcode pattern of 4 to 10 digits. -/
def digitsLenBetween (lo hi : Nat) (s : String) : Bool :=
  decide (lo ≤ s.data.length) && decide (s.data.length ≤ hi) && s.data.all isPyDigit

/-- Checksum weight for EAN-13: body position i weighs 1 if even, 3 if odd. -/
def ean13Weight (i : Nat) : Nat := if i % 2 = 0 then 1 else 3

/-- Checksum weight for EAN-8 and UPC-A: body position i weighs 3 if even,
1 if odd. -/
def upcWeight (i : Nat) : Nat := if i % 2 = 0 then 3 else 1

/-- Weighted digit sum over a list of digit characters. -/
def weightedSum (w : Nat → Nat) (l : List Char) : Nat :=
  (l.enum.map (fun p => digitVal p.2 * w p.1)).sum

/-- Check digit formula shared by all three checksums. -/
def checkDigit (total : Nat) : Nat := (10 - total % 10) % 10

/-- ProductIdentifierService.is_valid_ean13_checksum. -/
def is_valid_ean13_checksum (s : String) : Bool :=
  decide (s.data.length = 13) && s.data.all isPyDigit &&
    decide (digitVal (s.data.getD 12 '0') = checkDigit (weightedSum ean13Weight (s.data.take 12)))

/-- ProductIdentifierService.is_valid_ean8_checksum. -/
def is_valid_ean8_checksum (s : String) : Bool :=
  decide (s.data.length = 8) && s.data.all isPyDigit &&
    decide (digitVal (s.data.getD 7 '0') = checkDigit (weightedSum upcWeight (s.data.take 7)))

/-- ProductIdentifierService.is_valid_upc_checksum. -/
def is_valid_upc_checksum (s : String) : Bool :=
  decide (s.data.length = 12) && s.data.all isPyDigit &&
    decide (digitVal (s.data.getD 11 '0') = checkDigit (weightedSum upcWeight (s.data.take 11)))

/-- ProductIdentifierService.classify_barcode: strip, then first match wins
among EAN-13, EAN-8, UPC-A, 4-10 digit unverified barcode, else custom. -/
def classify_barcode (code : String) : IdentifierType :=
  let c := pyStrip code
  if c.data.isEmpty then .custom
  else if digitsOfLen 13 c && is_valid_ean13_checksum c then .ean
  else if digitsOfLen 8 c && is_valid_ean8_checksum c then .ean
  else if digitsOfLen 12 c && is_valid_upc_checksum c then .upc
  else if digitsLenBetween 4 10 c then .unverified_barcode
  else .custom

/-- Delimiter class of the compound splitter regex: slash, comma, semicolon
or whitespace. -/
def isCompoundDelim (c : Char) : Bool :=
  c.toNat = 47 || c.toNat = 44 || c.toNat = 59 || isPySpace c

/-- Split a character list at every delimiter character. Splitting on single
delimiters instead of delimiter runs yields extra empty tokens between
adjacent delimiters; the caller discards empty tokens, so the surviving
tokens coincide with those of the run-based regex split. -/
def splitDelimAux : List Char → List Char → List (List Char)
  | [], acc => [acc.reverse]
  | c :: rest, acc =>
    if isCompoundDelim c then acc.reverse :: splitDelimAux rest []
    else splitDelimAux rest (c :: acc)

/-- ProductIdentifierService.split_compound_ean: split on delimiters, strip
each token, discard empties, classify the rest. -/
def split_compound_ean (s : String) : List (String × IdentifierType) :=
  if s.data.isEmpty then []
  else
    (splitDelimAux s.data []).filterMap (fun t =>
      let t := pyStripL t
      if t.isEmpty then none
      else some (⟨t⟩, classify_barcode ⟨t⟩))

/- ======================================================================
   Section 3: identifier repository
   (services/identifiers.py add_identifier and the uniqueness indexes of
   db_models.ProductIdentifier; the store is the list of persisted rows)
   ====================================================================== -/

/-- One row of the product_identifiers table. -/
structure ProductIdentifier where
  product_id : Nat
  identifier_type : IdentifierType
  value : String
  supplier_id : Option Nat
  is_primary : Bool
  notes : Option String
deriving DecidableEq, Repr

/-- ProductIdentifierService.BARCODE_TYPES membership. -/
def memBarcodeGroup : IdentifierType → Bool
  | .ean => true
  | .upc => true
  | .unverified_barcode => true
  | _ => false

/-- ProductIdentifierService._clear_barcode_group_primary: unset is_primary
on every barcode-group identifier of the product. -/
def clearBarcodeGroupPrimary (store : List ProductIdentifier) (pid : Nat) :
    List ProductIdentifier :=
  store.map (fun i =>
    if i.product_id = pid ∧ i.is_primary = true ∧ memBarcodeGroup i.identifier_type = true
    then { i with is_primary := false } else i)

/-- ProductIdentifierService._clear_type_primary: unset is_primary on every
identifier of the product with the given type. -/
def clearTypePrimary (store : List ProductIdentifier) (pid : Nat)
    (t : IdentifierType) : List ProductIdentifier :=
  store.map (fun i =>
    if i.product_id = pid ∧ i.is_primary = true ∧ i.identifier_type = t
    then { i with is_primary := false } else i)

/-- Violation of one of the partial unique indexes of the
product_identifiers table by inserting row n into the store: ean, upc and
internal_sku values are globally unique per type, unverified_barcode unique
per product, supplier_sku unique per supplier, and the two partial primary
indexes admit one primary per scope. manufacturer and custom rows carry no
uniqueness constraint. -/
def flushConflict (store : List ProductIdentifier) (n : ProductIdentifier) : Bool :=
  (match n.identifier_type with
    | .ean | .upc | .internal_sku =>
      store.any (fun i =>
        decide (i.identifier_type = n.identifier_type ∧ i.value = n.value))
    | .unverified_barcode =>
      store.any (fun i =>
        decide (i.identifier_type = n.identifier_type ∧ i.product_id = n.product_id ∧
          i.value = n.value))
    | .supplier_sku =>
      store.any (fun i =>
        decide (i.identifier_type = n.identifier_type ∧ i.supplier_id = n.supplier_id ∧
          i.value = n.value))
    | .manufacturer | .custom => false)
  || (n.is_primary && memBarcodeGroup n.identifier_type &&
      store.any (fun i =>
        decide (i.product_id = n.product_id ∧ i.is_primary = true ∧
          memBarcodeGroup i.identifier_type = true)))
  || (n.is_primary && !memBarcodeGroup n.identifier_type &&
      store.any (fun i =>
        decide (i.product_id = n.product_id ∧ i.is_primary = true ∧
          i.identifier_type = n.identifier_type)))

/-- Failure modes of add_identifier: the two explicit ValueErrors raised by
the service, and the database IntegrityError raised at flush when a unique
index is violated (the repository defines no more specific error class for
duplicates). -/
inductive IdError where
  | valueEmpty
  | supplierRequired
  | uniqueViolation
deriving DecidableEq, Repr

/-- Result of one add_identifier call: the uncommitted session state after
the call together with the outcome. Validation errors are raised before any
mutation; a flush failure happens after the primary-clearing step, so the
returned store then carries the cleared flags but not the new row. -/
structure AddResult where
  store : List ProductIdentifier
  outcome : Except IdError ProductIdentifier
deriving Repr

/-- ProductIdentifierService.add_identifier. -/
def add_identifier (store : List ProductIdentifier) (product_id : Nat)
    (value : String) (identifier_type : Option IdentifierType)
    (supplier_id : Option Nat) (is_primary : Bool) (notes : Option String) :
    AddResult :=
  let v := pyStrip value
  if v.data.isEmpty then ⟨store, .error .valueEmpty⟩
  else
    let t := match identifier_type with
      | some t => t
      | none => classify_barcode v
    if t = .supplier_sku ∧ supplier_id = none then ⟨store, .error .supplierRequired⟩
    else
      let store1 :=
        if is_primary ∧ memBarcodeGroup t = true then
          clearBarcodeGroupPrimary store product_id
        else if is_primary then clearTypePrimary store product_id t
        else store
      let n : ProductIdentifier :=
        ⟨product_id, t, v, supplier_id, is_primary, notes⟩
      if flushConflict store1 n then ⟨store1, .error .uniqueViolation⟩
      else ⟨store1 ++ [n], .ok n⟩

/-- Arguments of one add_identifier call, for iterating call sequences. -/
structure AddCall where
  product_id : Nat
  value : String
  identifier_type : Option IdentifierType
  supplier_id : Option Nat
  is_primary : Bool
  notes : Option String
deriving Repr

/-- Store left behind by one call (successful or failed). -/
def applyAddCall (store : List ProductIdentifier) (c : AddCall) :
    List ProductIdentifier :=
  (add_identifier store c.product_id c.value c.identifier_type c.supplier_id
    c.is_primary c.notes).store

/-- Store left behind by a sequence of add_identifier calls. -/
def applyAddCalls (store : List ProductIdentifier) (cs : List AddCall) :
    List ProductIdentifier :=
  cs.foldl applyAddCall store

/-- The predicate picking the primary barcode-group identifiers of a
product. -/
def isGroupPrimaryOf (pid : Nat) (i : ProductIdentifier) : Bool :=
  decide (i.product_id = pid ∧ i.is_primary = true ∧
    memBarcodeGroup i.identifier_type = true)

/-- Number of primary barcode-group identifiers a product has in a store. -/
def primaryGroupCount (store : List ProductIdentifier) (pid : Nat) : Nat :=
  store.countP (isGroupPrimaryOf pid)

/- ======================================================================
   Section 4: JSON-file-backed receiving router (routers/receiving.py)
   ====================================================================== -/

/-- One element of the session JSON lines array. -/
structure FileLine where
  ean : String
  scm : String
  product_code : String
  title : String
  ordered_qty : Rat
  received_qty : Rat
  status : String
deriving DecidableEq, Repr

/-- One element of the session JSON scans array. Plain scans store code, qty
and status; manual edits and bulk accepts additionally store a type tag,
line index and old and new quantity; the bulk reset entry stores only a type
tag and a note. Absent JSON keys are modelled as none. -/
structure FileScanRec where
  typ : Option String
  line_index : Option Nat
  code : Option String
  qty : Option Rat
  old_qty : Option Rat
  new_qty : Option Rat
  note : Option String
  status : Option String
deriving DecidableEq, Repr

/-- The session JSON document (the fields the engine reads and writes). -/
structure FileSession where
  lines : List FileLine
  scans : List FileScanRec
deriving DecidableEq, Repr

/-- receiving._status_for. -/
def status_for (received ordered : Rat) : String :=
  if received ≤ 0 then "pending"
  else if received < ordered then "partial"
  else if received = ordered then "matched"
  else "overage"

/-- receiving._product_code_for_supplier with the supplier's configured
prefix passed in as pfx. -/
def product_code_for (pfx : String) (scm0 : String) : String :=
  let scm := pyStrip scm0
  if pfx.data.isEmpty = false ∧ scm.data.isEmpty = false then pfx ++ scm else scm

/-- The _matches closure of receiving.scan_code: the (already stripped,
nonempty) code equals the stripped ean, scm or product_code of the line. -/
def fileMatches (code : String) (l : FileLine) : Bool :=
  !code.data.isEmpty &&
    (decide (pyStrip l.ean = code) || decide (pyStrip l.scm = code) ||
      decide (pyStrip l.product_code = code))

/-- The matched line after a scan adds qty to it. -/
def fileScanUpdate (qty : Rat) (l : FileLine) : FileLine :=
  { l with received_qty := l.received_qty + qty,
           status := status_for (l.received_qty + qty) l.ordered_qty }

/-- First-match-wins walk of receiving.scan_code over the lines array:
returns the updated array and the resulting line status, or none when no
line matches. -/
def fileScanLines (code : String) (qty : Rat) : List FileLine → Option (List FileLine × String)
  | [] => none
  | l :: rest =>
    if fileMatches code l then
      some (fileScanUpdate qty l :: rest, status_for (l.received_qty + qty) l.ordered_qty)
    else
      match fileScanLines code qty rest with
      | some (rest1, st) => some (l :: rest1, st)
      | none => none

/-- receiving.scan_code: strip the code, update the first matching line (or
none), and append one scans entry carrying the resulting status, which is
unexpected when nothing matched. Returns the new session state and the
status reported to the caller. -/
def fileScan (s : FileSession) (code0 : String) (qty : Rat) : FileSession × String :=
  let code := pyStrip code0
  match fileScanLines code qty s.lines with
  | some (lines1, st) =>
    (⟨lines1, s.scans ++ [⟨none, none, some code, some qty, none, none, none, some st⟩]⟩, st)
  | none =>
    (⟨s.lines, s.scans ++ [⟨none, none, some code, some qty, none, none, none, some "unexpected"⟩]⟩,
      "unexpected")

/-- Audit code stored by manual edits and bulk accepts: the line's ean if
nonempty, else its scm if nonempty, else the empty string. -/
def lineAuditCode (l : FileLine) : String :=
  if l.ean.data.isEmpty = false then l.ean
  else if l.scm.data.isEmpty = false then l.scm
  else ""

/-- receiving.set_line_quantity: absolute manual edit of one line's received
quantity, recomputing its status and logging a manual_edit entry. An out of
range index raises before any mutation, leaving the state unchanged. -/
def fileSetQty (s : FileSession) (idx : Nat) (received_qty : Rat)
    (note : Option String) : FileSession :=
  match s.lines.get? idx with
  | none => s
  | some line =>
    let newLine := { line with
      received_qty := received_qty,
      status := status_for received_qty line.ordered_qty }
    ⟨s.lines.set idx newLine,
      s.scans ++ [⟨some "manual_edit", some idx, some (lineAuditCode line),
        none, some line.received_qty, some received_qty, note,
        some (status_for received_qty line.ordered_qty)⟩]⟩

/-- Per-line effect of receiving.accept_all_items: skip the line when
only_pending holds and its status is not pending, or when its received
quantity is not below the ordered one; otherwise set received to ordered and
the status to the literal matched. -/
def acceptLine (only_pending : Bool) (l : FileLine) : FileLine :=
  if only_pending = true ∧ l.status ≠ "pending" then l
  else if l.received_qty < l.ordered_qty then
    { l with received_qty := l.ordered_qty, status := "matched" }
  else l

/-- Audit entries appended by accept_all_items, one per updated line, in
line order. -/
def acceptAllLogs (only_pending : Bool) (lines : List FileLine) : List FileScanRec :=
  lines.enum.filterMap (fun p =>
    if only_pending = true ∧ p.2.status ≠ "pending" then none
    else if p.2.received_qty < p.2.ordered_qty then
      some ⟨some "bulk_accept", some p.1, some (lineAuditCode p.2), none,
        some p.2.received_qty, some p.2.ordered_qty, none, some "matched"⟩
    else none)

/-- receiving.accept_all_items: the loop touches each line independently and
logs one entry per update. -/
def fileAcceptAll (s : FileSession) (only_pending : Bool) : FileSession :=
  ⟨s.lines.map (acceptLine only_pending),
    s.scans ++ acceptAllLogs only_pending s.lines⟩

/-- receiving.reset_all_items: one bulk_reset log entry, then every line
back to received zero, status pending. -/
def fileResetAll (s : FileSession) : FileSession :=
  ⟨s.lines.map (fun l => { l with received_qty := 0, status := "pending" }),
    s.scans ++ [⟨some "bulk_reset", none, none, none, none, none,
      some "All quantities reset to 0", none⟩]⟩

/-- The operations of the file-backed router that touch line state. -/
inductive FileOp where
  | scan (code : String) (qty : Rat)
  | setQty (idx : Nat) (qty : Rat) (note : Option String)
  | acceptAll (only_pending : Bool)
  | resetAll
deriving Repr

/-- Session state after one operation. -/
def applyFileOp (s : FileSession) : FileOp → FileSession
  | .scan code qty => (fileScan s code qty).1
  | .setQty idx qty note => fileSetQty s idx qty note
  | .acceptAll b => fileAcceptAll s b
  | .resetAll => fileResetAll s

/-- Session state after a sequence of operations. -/
def applyFileOps (s : FileSession) (ops : List FileOp) : FileSession :=
  ops.foldl applyFileOp s

/-- Session summary projection used by the scan, summary, set-qty and
accept-all endpoints: status counts over lines plus the count of scans
entries whose status is unexpected. -/
structure Summary where
  nMatched : Nat
  nPart : Nat
  nPending : Nat
  nOver : Nat
  nUnexpected : Nat
deriving DecidableEq, Repr

/-- Count of lines in a given status. -/
def countStatus (st : String) (lines : List FileLine) : Nat :=
  (lines.filter (fun l => decide (l.status = st))).length

/-- Count of unexpected scan entries. -/
def countUnexpected (scans : List FileScanRec) : Nat :=
  (scans.filter (fun r => decide (r.status = some "unexpected"))).length

/-- The summary dictionary computed by the file-backed endpoints. -/
def fileSummary (s : FileSession) : Summary :=
  ⟨countStatus "matched" s.lines, countStatus "partial" s.lines,
    countStatus "pending" s.lines, countStatus "overage" s.lines,
    countUnexpected s.scans⟩

/-- One received_items element built by receiving.finalize_session. -/
structure ReceivedItem where
  product_code : String
  scm : String
  ean : String
  title : String
  ordered_qty : Rat
  received_qty : Rat
  status : String
deriving DecidableEq, Repr

/-- The received item built from one line, with the product code falling
back to prefix plus scm when the stored product_code is empty. -/
def receivedItemOf (pfx : String) (l : FileLine) : ReceivedItem :=
  let pc := if l.product_code.data.isEmpty = false then l.product_code
            else product_code_for pfx l.scm
  ⟨pc, l.scm, l.ean, l.title, l.ordered_qty, l.received_qty, l.status⟩

/-- The received_items loop of receiving.finalize_session: append one entry
for each line with positive received quantity, in line order. -/
def fileReceivedItems (pfx : String) (lines : List FileLine) : List ReceivedItem :=
  lines.foldl (fun acc l =>
    if 0 < l.received_qty then acc ++ [receivedItemOf pfx l] else acc) []

/-- Result summary of one file-backed finalize call. -/
structure FileFinalOut where
  success : Bool
  received_items : List ReceivedItem
  total_lines : Nat
  n_complete : Nat
  n_part : Nat
  n_over : Nat
  n_not_received : Nat
deriving DecidableEq, Repr

/-- The on-disk state the file-backed finalize endpoint touches: whether the
session file exists, its contents, and whether a completed record has been
written. The session file itself is never marked completed. -/
structure FileStore where
  sessionExists : Bool
  session : FileSession
  completedWritten : Bool
deriving Repr

/-- receiving.finalize_session: 404 when the session file is missing,
otherwise compute stats and received items, write the completed record and
report success. No already-finalized check exists: the force request field
is never read, the session file is left in place, and a repeated call runs
the whole computation again. -/
def fileFinalizeOp (pfx : String) (st : FileStore) :
    FileStore × Except String FileFinalOut :=
  if st.sessionExists = false then (st, .error "Session not found")
  else
    ({ st with completedWritten := true },
      .ok ⟨true, fileReceivedItems pfx st.session.lines,
        st.session.lines.length,
        countStatus "matched" st.session.lines,
        countStatus "partial" st.session.lines,
        countStatus "overage" st.session.lines,
        countStatus "pending" st.session.lines⟩)

/- ======================================================================
   Section 5: PostgreSQL-backed receiving router (routers/receiving_db.py)
   ====================================================================== -/

/-- db_models.ReceivingStatus. -/
inductive ReceivingStatus where
  | new
  | in_progress
  | paused
  | completed
  | cancelled
deriving DecidableEq, Repr

/-- One receiving_lines row (the columns the scan and finalize endpoints
read or write). ean and supplier_sku are nullable columns. -/
structure DbLine where
  id : Nat
  line_number : Nat
  ean : Option String
  supplier_sku : Option String
  ordered_qty : Rat
  received_qty : Rat
  status : String
deriving DecidableEq, Repr

/-- One scan_events row (the columns the scan endpoint writes and the
summary queries read). The status column is the active/undone ScanStatus;
the scan endpoint always writes active, and unexpectedness is represented
by a null receiving_line_id. -/
structure DbScanEvent where
  receiving_line_id : Option Nat
  scanned_code : String
  quantity : Rat
  scan_status : String
  scanned_by : String
deriving DecidableEq, Repr

/-- One receiving_sessions row together with its owned lines and events. -/
structure DbSession where
  status : ReceivingStatus
  started : Bool
  finished : Bool
  lines : List DbLine
  events : List DbScanEvent
deriving DecidableEq, Repr

/-- Line matching of receiving_db.scan_code: the stripped nonempty code
equals the line's stripped ean or its stripped supplier_sku (null or empty
fields never match). The stored product code plays no part here. -/
def dbLineMatches (code : String) (l : DbLine) : Bool :=
  !code.data.isEmpty &&
    ((match l.ean with
      | some e => !e.data.isEmpty && decide (pyStrip e = code)
      | none => false) ||
     (match l.supplier_sku with
      | some k => !k.data.isEmpty && decide (pyStrip k = code)
      | none => false))

/-- Status recomputation of receiving_db.scan_code after adding qty. -/
def dbStatusAfter (received ordered : Rat) : String :=
  if received ≤ 0 then "pending"
  else if received < ordered then "partial"
  else if received = ordered then "matched"
  else "overage"

/-- First-match-wins walk of receiving_db.scan_code over the session lines:
returns the updated lines, the id of the matched line and the resulting
status, or none when no line matches. -/
def dbScanLines (code : String) (qty : Rat) : List DbLine → Option (List DbLine × Nat × String)
  | [] => none
  | l :: rest =>
    if dbLineMatches code l then
      some (
        ({ l with
            received_qty := l.received_qty + qty,
            status := dbStatusAfter (l.received_qty + qty) l.ordered_qty }) :: rest,
        l.id, dbStatusAfter (l.received_qty + qty) l.ordered_qty)
    else
      match dbScanLines code qty rest with
      | some (rest1, i, st) => some (l :: rest1, i, st)
      | none => none

/-- receiving_db.scan_code: a session still in status new is moved to
in_progress with started_at set before any matching happens; then the first
line whose ean or supplier_sku equals the stripped code receives the
quantity, and a scan event is recorded, with a null line id when nothing
matched. Returns the new session state and the status reported to the
caller (unexpected when nothing matched). -/
def dbScan (s : DbSession) (code0 : String) (qty : Rat) (by0 : String) :
    DbSession × String :=
  let s1 := if s.status = .new then { s with status := .in_progress, started := true } else s
  let code := pyStrip code0
  match dbScanLines code qty s1.lines with
  | some (lines1, lineId, st) =>
    ({ s1 with
        lines := lines1,
        events := s1.events ++ [⟨some lineId, code, qty, "active", by0⟩] }, st)
  | none =>
    ({ s1 with events := s1.events ++ [⟨none, code, qty, "active", by0⟩] }, "unexpected")

/-- The unexpected count the DB summary queries compute: events of the
session with a null line id and active status. -/
def dbCountUnexpected (events : List DbScanEvent) : Nat :=
  (events.filter (fun e =>
    decide (e.receiving_line_id = none ∧ e.scan_status = "active"))).length

/-- Failure modes of receiving_db.finalize_session (both surface as
HTTPExceptions; the 400 detail reads Session already finalized). -/
inductive DbFinalizeError where
  | notFound
  | alreadyFinalized
deriving DecidableEq, Repr

/-- The selected product codes computed by receiving_db.finalize_session:
for each line with positive received quantity whose supplier_sku is neither
null nor empty, the prefix concatenated with the sku. Lines with a positive
received quantity but no supplier_sku contribute nothing. -/
def dbSelectedCodes (pfx : String) (lines : List DbLine) : List String :=
  lines.foldl (fun acc l =>
    if 0 < l.received_qty then
      match l.supplier_sku with
      | some sku => if sku.data.isEmpty then acc else acc ++ [pfx ++ sku]
      | none => acc
    else acc) []

/-- receiving_db.finalize_session: already completed sessions are rejected
with the already-finalized error; otherwise the session is marked completed
with finished_at set and the ledger-boundary output is computed. -/
def dbFinalize (pfx : String) (s : DbSession) :
    Except DbFinalizeError (DbSession × List String) :=
  if s.status = .completed then .error .alreadyFinalized
  else .ok ({ s with status := .completed, finished := true },
    dbSelectedCodes pfx s.lines)

/- ======================================================================
   Section 6: helper lemmas
   ====================================================================== -/

/-- Digit characters are not whitespace. -/
theorem isPyDigit_not_space (c : Char) (h : isPyDigit c = true) : isPySpace c = false := by
  simp only [isPyDigit, Bool.and_eq_true, decide_eq_true_eq] at h
  simp only [isPySpace, Bool.or_eq_false_iff, decide_eq_false_iff_not]
  omega

/-- dropWhile is the identity on lists with no leading satisfier anywhere. -/
theorem dropWhile_eq_self_of_none (p : Char → Bool) (l : List Char)
    (h : ∀ c ∈ l, p c = false) : l.dropWhile p = l := by
  cases l with
  | nil => rfl
  | cons c t => simp [List.dropWhile, h c (List.mem_cons_self c t)]

/-- Stripping an all-digit character list is the identity. -/
theorem pyStripL_of_digits (l : List Char) (h : l.all isPyDigit = true) :
    pyStripL l = l := by
  have hns : ∀ c ∈ l, isPySpace c = false := by
    intro c hc
    exact isPyDigit_not_space c (by simpa using (List.all_eq_true.mp h c hc))
  unfold pyStripL
  rw [dropWhile_eq_self_of_none _ _ hns,
    dropWhile_eq_self_of_none _ _ (by intro c hc; exact hns c (List.mem_reverse.mp hc)),
    List.reverse_reverse]

/-- Stripping an all-digit string is the identity. -/
theorem pyStrip_of_digits (s : String) (h : s.data.all isPyDigit = true) :
    pyStrip s = s := by
  cases s with
  | mk data => simp [pyStrip, pyStripL_of_digits data h]

/- ======================================================================
   Section 7: claim theorems
   ====================================================================== -/

/-- C2: for every 13-character numeric (all ASCII digits) string,
classify_barcode returns ean exactly when the EAN-13 checksum holds; for
every 8-digit numeric string it returns ean exactly when the EAN-8 checksum
holds; and for every 12-digit numeric string it returns upc exactly when
the UPC-A checksum holds. The checksum embeddings weigh the body digits
exactly as the spec states (EAN-13: 1 on even positions, 3 on odd; EAN-8
and UPC-A: 3 on even, 1 on odd) and compare the final digit with
(10 - sum mod 10) mod 10. -/
theorem C2_classify_iff_checksum (s : String) (hdig : s.data.all isPyDigit = true) :
    (s.data.length = 13 →
      (classify_barcode s = .ean ↔ is_valid_ean13_checksum s = true)) ∧
    (s.data.length = 8 →
      (classify_barcode s = .ean ↔ is_valid_ean8_checksum s = true)) ∧
    (s.data.length = 12 →
      (classify_barcode s = .upc ↔ is_valid_upc_checksum s = true)) := by
  have hstrip : pyStrip s = s := pyStrip_of_digits s hdig
  refine ⟨?_, ?_, ?_⟩ <;> intro hlen
  · have hne : s.data.isEmpty = false := by
      cases hd : s.data <;> simp [hd] at hlen ⊢
    by_cases hck : is_valid_ean13_checksum s = true
    · simp [classify_barcode, hstrip, hne, digitsOfLen, hlen, hdig, hck]
    · simp [classify_barcode, hstrip, hne, digitsOfLen, digitsLenBetween, hlen, hdig,
        Bool.not_eq_true] at hck ⊢
  · have hne : s.data.isEmpty = false := by
      cases hd : s.data <;> simp [hd] at hlen ⊢
    by_cases hck : is_valid_ean8_checksum s = true
    · simp [classify_barcode, hstrip, hne, digitsOfLen, hlen, hdig, hck]
    · simp [classify_barcode, hstrip, hne, digitsOfLen, digitsLenBetween, hlen, hdig,
        Bool.not_eq_true] at hck ⊢
  · have hne : s.data.isEmpty = false := by
      cases hd : s.data <;> simp [hd] at hlen ⊢
    by_cases hck : is_valid_upc_checksum s = true
    · simp [classify_barcode, hstrip, hne, digitsOfLen, hlen, hdig, hck]
    · simp [classify_barcode, hstrip, hne, digitsOfLen, digitsLenBetween, hlen, hdig,
        Bool.not_eq_true] at hck ⊢

/-- C2 witness: the theorem instantiated at the concrete EAN-13 from the
spec's own test vector, whose checksum holds. -/
theorem C2_witness : classify_barcode "6927116185329" = .ean :=
  ((C2_classify_iff_checksum "6927116185329" (by decide)).1 (by decide)).mpr (by decide)

/-- C9: the spec's compound test vector splits into exactly three codes in
input order, classified unverified_barcode, ean, ean; and in general every
pair produced by the splitter is a nonempty token classified by
classify_barcode (empty tokens arising between delimiters are discarded). -/
theorem C9_split_compound :
    (split_compound_ean "398828/6927116185329/6938112675813" =
      [("398828", IdentifierType.unverified_barcode),
       ("6927116185329", IdentifierType.ean),
       ("6938112675813", IdentifierType.ean)]) ∧
    (∀ (s : String) (p : String × IdentifierType), p ∈ split_compound_ean s →
      p.2 = classify_barcode p.1 ∧ p.1.data ≠ []) := by
  constructor
  · decide
  · intro s p hp
    unfold split_compound_ean at hp
    split at hp
    · exact absurd hp (List.not_mem_nil p)
    · rw [List.mem_filterMap] at hp
      obtain ⟨t, -, ht⟩ := hp
      dsimp only at ht
      by_cases hte : (pyStripL t).isEmpty
      · rw [if_pos hte] at ht
        exact absurd ht (by simp)
      · rw [if_neg hte] at ht
        obtain rfl := Option.some.inj ht
        exact ⟨rfl, by simpa [List.isEmpty_iff] using hte⟩

/-- C9 witness: the general classification property of the theorem applied
to the first pair of the concrete split. -/
theorem C9_witness :
    ("398828", IdentifierType.unverified_barcode).2 =
      classify_barcode ("398828", IdentifierType.unverified_barcode).1 :=
  (C9_split_compound.2 "398828/6927116185329/6938112675813"
    ("398828", IdentifierType.unverified_barcode) (by decide)).1

/-- Invariant of one receiving line: positive ordered quantity, and the
stored status agrees with the status function of the spec's section 4.4. -/
def lineGood (l : FileLine) : Prop :=
  0 < l.ordered_qty ∧ l.status = status_for l.received_qty l.ordered_qty

instance lineGoodDecidable (l : FileLine) : Decidable (lineGood l) :=
  inferInstanceAs (Decidable (0 < l.ordered_qty ∧
    l.status = status_for l.received_qty l.ordered_qty))

/-- A successful scan walk preserves the line invariant. -/
theorem fileScanLines_good (code : String) (qty : Rat) :
    ∀ (lines lines1 : List FileLine) (st : String),
      (∀ l ∈ lines, lineGood l) →
      fileScanLines code qty lines = some (lines1, st) →
      ∀ l ∈ lines1, lineGood l := by
  intro lines
  induction lines with
  | nil => intro lines1 st _ h; simp [fileScanLines] at h
  | cons hd rest ih =>
    intro lines1 st hg h
    rw [fileScanLines] at h
    by_cases hm : fileMatches code hd
    · rw [if_pos hm] at h
      obtain ⟨rfl, rfl⟩ := Prod.mk.injEq .. ▸ Option.some.inj h
      intro l hl
      rcases List.mem_cons.mp hl with rfl | hl
      · have hhd := hg hd (List.mem_cons_self hd rest)
        exact ⟨hhd.1, rfl⟩
      · exact hg l (List.mem_cons_of_mem hd hl)
    · rw [if_neg hm] at h
      cases hrest : fileScanLines code qty rest with
      | none => rw [hrest] at h; exact absurd h (by simp)
      | some v =>
        rw [hrest] at h
        obtain ⟨rest1, st1⟩ := v
        obtain ⟨rfl, rfl⟩ := Prod.mk.injEq .. ▸ Option.some.inj h
        intro l hl
        rcases List.mem_cons.mp hl with rfl | hl
        · exact hg l (List.mem_cons_self l rest)
        · exact ih rest1 st1 (fun x hx => hg x (List.mem_cons_of_mem hd hx)) hrest l hl

/-- The per-line accept step preserves the line invariant. -/
theorem acceptLine_good (b : Bool) (l : FileLine) (h : lineGood l) :
    lineGood (acceptLine b l) := by
  unfold acceptLine
  split
  · exact h
  · split
    · refine ⟨h.1, ?_⟩
      show "matched" = status_for l.ordered_qty l.ordered_qty
      unfold status_for
      rw [if_neg (by exact not_le.mpr h.1), if_neg (by exact lt_irrefl _), if_pos rfl]
    · exact h

/-- Every operation of the file-backed router preserves the line invariant. -/
theorem applyFileOp_good (s : FileSession) (op : FileOp)
    (hg : ∀ l ∈ s.lines, lineGood l) :
    ∀ l ∈ (applyFileOp s op).lines, lineGood l := by
  cases op with
  | scan code qty =>
    show ∀ l ∈ (fileScan s code qty).1.lines, lineGood l
    unfold fileScan
    cases hsc : fileScanLines (pyStrip code) qty s.lines with
    | none => simpa [hsc] using hg
    | some v =>
      obtain ⟨lines1, st⟩ := v
      simpa [hsc] using fileScanLines_good (pyStrip code) qty s.lines lines1 st hg hsc
  | setQty idx qty note =>
    show ∀ l ∈ (fileSetQty s idx qty note).lines, lineGood l
    unfold fileSetQty
    cases hget : s.lines.get? idx with
    | none => simpa using hg
    | some line =>
      simp only
      intro l hl
      rcases List.mem_or_eq_of_mem_set hl with hl | rfl
      · exact hg l hl
      · have hline := hg line (List.get?_mem hget)
        exact ⟨hline.1, rfl⟩
  | acceptAll b =>
    show ∀ l ∈ (fileAcceptAll s b).lines, lineGood l
    unfold fileAcceptAll
    simp only [List.mem_map]
    rintro l ⟨x, hx, rfl⟩
    exact acceptLine_good b x (hg x hx)
  | resetAll =>
    show ∀ l ∈ (fileResetAll s).lines, lineGood l
    unfold fileResetAll
    simp only [List.mem_map]
    rintro l ⟨x, hx, rfl⟩
    refine ⟨(hg x hx).1, ?_⟩
    show "pending" = status_for 0 x.ordered_qty
    unfold status_for
    rw [if_pos le_rfl]

/-- C1 (amended): for sessions all of whose lines carry a positive ordered
quantity, every line's status equals the status function of
(received_qty, ordered_qty) from the spec's section 4.4 after any sequence
of scan, manual-edit, accept-all and reset operations, provided it did to
start with (freshly created sessions start with received 0 and status
pending, which satisfies the invariant). The positivity hypothesis is
forced by the counterexample below: accept-all writes the literal status
matched without consulting the status function, which disagrees with it
exactly when the accepted ordered quantity is not positive. -/
theorem C1_status_invariant (s : FileSession) (ops : List FileOp)
    (h : ∀ l ∈ s.lines, lineGood l) :
    ∀ l ∈ (applyFileOps s ops).lines, lineGood l := by
  induction ops generalizing s with
  | nil => simpa [applyFileOps] using h
  | cons op rest ih =>
    have hstep := applyFileOp_good s op h
    simpa [applyFileOps] using ih (applyFileOp s op) hstep

/-- C1 witness: the invariant carried through a scan, a manual edit, an
accept-all and a reset on a concrete two-line session. -/
theorem C1_witness :
    lineGood ⟨"4006381333931", "A1", "PL-A1", "t", 5, 0, "pending"⟩ := by
  have := C1_status_invariant
    ⟨[⟨"4006381333931", "A1", "PL-A1", "t", 5, 0, "pending"⟩,
      ⟨"", "B2", "PL-B2", "u", 3, 0, "pending"⟩], []⟩
    [.scan "ZZZ" 2, .setQty 1 1 none, .acceptAll true, .resetAll]
    (by decide)
  have hfinal : (applyFileOps
      ⟨[⟨"4006381333931", "A1", "PL-A1", "t", 5, 0, "pending"⟩,
        ⟨"", "B2", "PL-B2", "u", 3, 0, "pending"⟩], []⟩
      [.scan "ZZZ" 2, .setQty 1 1 none, .acceptAll true, .resetAll]).lines =
      [⟨"4006381333931", "A1", "PL-A1", "t", 5, 0, "pending"⟩,
       ⟨"", "B2", "PL-B2", "u", 3, 0, "pending"⟩] := by decide
  refine this _ ?_
  rw [hfinal]
  exact List.mem_cons_self _ _

/-- C1 counterexample: the claim as stated fails on the code. A session can
hold a line with ordered quantity -1 (invoice CSV quantities are parsed as
arbitrary floats, so credit lines are representable) and a manual edit can
set received to -3; accept-all then raises the line to received -1 but
stamps it with the literal status matched, while the status function of
section 4.4 maps (-1, -1) to pending. -/
theorem C1_counterexample :
    ¬ (∀ l ∈ (applyFileOps ⟨[⟨"", "", "", "", -1, 0, "pending"⟩], []⟩
        [.setQty 0 (-3) none, .acceptAll true]).lines,
      l.status = status_for l.received_qty l.ordered_qty) := by
  decide

/-- The per-line accept step is idempotent. -/
theorem acceptLine_idem (b : Bool) (l : FileLine) :
    acceptLine b (acceptLine b l) = acceptLine b l := by
  unfold acceptLine
  by_cases h1 : b = true ∧ l.status ≠ "pending"
  · rw [if_pos h1, if_pos h1]
  · rw [if_neg h1]
    by_cases h2 : l.received_qty < l.ordered_qty
    · rw [if_pos h2]
      by_cases hb : b = true
      · rw [if_pos ⟨hb, by simp⟩]
      · rw [if_neg (by simp [hb]), if_neg (by simp)]
    · rw [if_neg h2, if_neg h1, if_neg h2]

/-- After one accept pass no line qualifies any more: either the
only_pending guard skips it or its received quantity is no longer below its
ordered quantity. -/
theorem acceptLine_no_more (b : Bool) (l : FileLine) :
    (b = true ∧ (acceptLine b l).status ≠ "pending") ∨
    ¬ ((acceptLine b l).received_qty < (acceptLine b l).ordered_qty) := by
  unfold acceptLine
  by_cases h1 : b = true ∧ l.status ≠ "pending"
  · rw [if_pos h1]
    exact Or.inl h1
  · rw [if_neg h1]
    by_cases h2 : l.received_qty < l.ordered_qty
    · rw [if_pos h2]
      by_cases hb : b = true
      · exact Or.inl ⟨hb, by simp⟩
      · exact Or.inr (by simp)
    · rw [if_neg h2]
      exact Or.inr h2

/-- Accept-all logs nothing on an already accepted line list. -/
theorem acceptAllLogs_after_accept (b : Bool) (lines : List FileLine) :
    acceptAllLogs b (lines.map (acceptLine b)) = [] := by
  unfold acceptAllLogs
  rw [List.enum_map, List.filterMap_map]
  refine List.filterMap_eq_nil_iff.mpr ?_
  rintro ⟨i, l⟩ -
  simp only [Function.comp_apply, Prod.map_apply, id_eq]
  rcases acceptLine_no_more b l with h | h
  · exact if_pos h
  · by_cases hg : b = true ∧ (acceptLine b l).status ≠ "pending"
    · exact if_pos hg
    · rw [if_neg hg]
      exact if_neg h

/-- C10: accept-all is monotone and idempotent. Its line array is the
pointwise image of the per-line accept step; that step leaves every line
whose received quantity already reaches the ordered quantity completely
unchanged, never decreases a received quantity, and changes a line only by
raising a received quantity that was below the ordered quantity up to
exactly the ordered quantity. Applying accept-all twice (with the same
only_pending flag) equals applying it once, audit log included. -/
theorem C10_accept_all (s : FileSession) (b : Bool) :
    ((fileAcceptAll s b).lines = s.lines.map (acceptLine b)) ∧
    (∀ l : FileLine, l.ordered_qty ≤ l.received_qty → acceptLine b l = l) ∧
    (∀ l : FileLine, l.received_qty ≤ (acceptLine b l).received_qty) ∧
    (∀ l : FileLine, acceptLine b l ≠ l →
      l.received_qty < l.ordered_qty ∧ (acceptLine b l).received_qty = l.ordered_qty) ∧
    (fileAcceptAll (fileAcceptAll s b) b = fileAcceptAll s b) := by
  refine ⟨rfl, ?_, ?_, ?_, ?_⟩
  · intro l h
    unfold acceptLine
    rw [if_neg (not_lt.mpr h)]
    split <;> rfl
  · intro l
    unfold acceptLine
    split
    · exact le_rfl
    · split
      · exact le_of_lt (by assumption)
      · exact le_rfl
  · intro l h
    unfold acceptLine at h ⊢
    by_cases h1 : b = true ∧ l.status ≠ "pending"
    · rw [if_pos h1] at h
      exact absurd rfl h
    · rw [if_neg h1] at h ⊢
      by_cases h2 : l.received_qty < l.ordered_qty
      · rw [if_pos h2]
        exact ⟨h2, rfl⟩
      · rw [if_neg h2] at h
        exact absurd rfl h
  · show fileAcceptAll ⟨s.lines.map (acceptLine b), s.scans ++ acceptAllLogs b s.lines⟩ b =
      fileAcceptAll s b
    unfold fileAcceptAll
    simp only [List.map_map]
    have hmap : s.lines.map (acceptLine b ∘ acceptLine b) = s.lines.map (acceptLine b) :=
      List.map_congr_left (fun l _ => by
        simp only [Function.comp_apply]
        exact acceptLine_idem b l)
    rw [hmap, acceptAllLogs_after_accept, List.append_nil]

/-- C10 witness: the no-change clause of the theorem applied to a concrete
line already received beyond its ordered quantity. -/
theorem C10_witness :
    acceptLine true ⟨"E", "A1", "PL-A1", "t", 5, 7, "overage"⟩ =
      ⟨"E", "A1", "PL-A1", "t", 5, 7, "overage"⟩ :=
  (C10_accept_all ⟨[], []⟩ true).2.1 ⟨"E", "A1", "PL-A1", "t", 5, 7, "overage"⟩ (by decide)

/-- A scan walk over lines none of which match returns none. -/
theorem fileScanLines_none (code : String) (qty : Rat) :
    ∀ lines : List FileLine, (∀ l ∈ lines, fileMatches code l = false) →
      fileScanLines code qty lines = none := by
  intro lines
  induction lines with
  | nil => intro _; rfl
  | cons hd rest ih =>
    intro h
    rw [fileScanLines, if_neg (by simp [h hd (List.mem_cons_self hd rest)]),
      ih (fun l hl => h l (List.mem_cons_of_mem hd hl))]

/-- A DB scan walk over lines none of which match returns none. -/
theorem dbScanLines_none (code : String) (qty : Rat) :
    ∀ lines : List DbLine, (∀ l ∈ lines, dbLineMatches code l = false) →
      dbScanLines code qty lines = none := by
  intro lines
  induction lines with
  | nil => intro _; rfl
  | cons hd rest ih =>
    intro h
    rw [dbScanLines, if_neg (by simp [h hd (List.mem_cons_self hd rest)]),
      ih (fun l hl => h l (List.mem_cons_of_mem hd hl))]

/-- Appending one unexpected entry raises the unexpected count by one. -/
theorem countUnexpected_append_one (scans : List FileScanRec) (r : FileScanRec)
    (h : r.status = some "unexpected") :
    countUnexpected (scans ++ [r]) = countUnexpected scans + 1 := by
  simp [countUnexpected, List.filter_append, h]

/-- Appending one null-line active event raises the DB unexpected count by
one. -/
theorem dbCountUnexpected_append_one (events : List DbScanEvent) (e : DbScanEvent)
    (h : e.receiving_line_id = none ∧ e.scan_status = "active") :
    dbCountUnexpected (events ++ [e]) = dbCountUnexpected events + 1 := by
  simp [dbCountUnexpected, List.filter_append, h.1, h.2]

/-- C4 (amended): a scan that matches no line reports unexpected, records a
scan entry carrying no line reference with status unexpected (file router)
or a scan event with a null line id (DB router), and raises the unexpected
counter by exactly one while leaving every line untouched. In the file
router nothing else in the session changes; in the DB router the claim's
frame part fails, because the scan first moves a session still in status
new to in_progress (setting started_at), even when the scan is unexpected,
as shown by the counterexample. -/
theorem C4_unexpected_scan_frame :
    (∀ (s : FileSession) (code0 : String) (qty : Rat),
      (∀ l ∈ s.lines, fileMatches (pyStrip code0) l = false) →
      (fileScan s code0 qty).2 = "unexpected" ∧
      (fileScan s code0 qty).1.lines = s.lines ∧
      (fileScan s code0 qty).1.scans = s.scans ++
        [⟨none, none, some (pyStrip code0), some qty, none, none, none, some "unexpected"⟩] ∧
      countUnexpected (fileScan s code0 qty).1.scans = countUnexpected s.scans + 1) ∧
    (∀ (s : DbSession) (code0 : String) (qty : Rat) (who : String),
      (∀ l ∈ s.lines, dbLineMatches (pyStrip code0) l = false) →
      (dbScan s code0 qty who).2 = "unexpected" ∧
      (dbScan s code0 qty who).1.lines = s.lines ∧
      (dbScan s code0 qty who).1.events = s.events ++
        [⟨none, pyStrip code0, qty, "active", who⟩] ∧
      dbCountUnexpected (dbScan s code0 qty who).1.events =
        dbCountUnexpected s.events + 1 ∧
      (dbScan s code0 qty who).1.status =
        (if s.status = .new then .in_progress else s.status)) := by
  constructor
  · intro s code0 qty h
    have hn := fileScanLines_none (pyStrip code0) qty s.lines h
    simp only [fileScan, hn]
    refine ⟨trivial, trivial, trivial, countUnexpected_append_one s.scans _ rfl⟩
  · intro s code0 qty who h
    have hn := dbScanLines_none (pyStrip code0) qty s.lines h
    by_cases hs : s.status = ReceivingStatus.new
    · simp only [dbScan, if_pos hs, hn]
      refine ⟨trivial, trivial, trivial,
        dbCountUnexpected_append_one s.events _ ⟨rfl, rfl⟩, trivial⟩
    · simp only [dbScan, if_neg hs, hn]
      refine ⟨trivial, trivial, trivial,
        dbCountUnexpected_append_one s.events _ ⟨rfl, rfl⟩, trivial⟩

/-- C4 witness: the file-router clause of the theorem at a concrete session
and a code matching no line. -/
theorem C4_witness :
    (fileScan ⟨[⟨"4006381333931", "A1", "PL-A1", "t", 10, 0, "pending"⟩], []⟩
      "ZZZ" 1).2 = "unexpected" :=
  ((C4_unexpected_scan_frame.1
    ⟨[⟨"4006381333931", "A1", "PL-A1", "t", 10, 0, "pending"⟩], []⟩
    "ZZZ" 1) (by decide)).1

/-- C4 counterexample: on the DB router the claim's frame clause is false.
An unexpected scan against a session still in status new leaves a null-line
scan event as claimed, but also flips the session status from new to
in_progress, so not all other session state is identical afterwards. -/
theorem C4_counterexample :
    ((dbScan ⟨.new, false, false,
        [⟨7, 1, some "4006381333931", some "A1", 10, 0, "pending"⟩], []⟩
      "ZZZ" 1 "scanner").2 = "unexpected") ∧
    ((dbScan ⟨.new, false, false,
        [⟨7, 1, some "4006381333931", some "A1", 10, 0, "pending"⟩], []⟩
      "ZZZ" 1 "scanner").1.status = .in_progress) ∧
    ReceivingStatus.in_progress ≠ ReceivingStatus.new := by
  refine ⟨rfl, rfl, by decide⟩

/-- C5 (amended): in the PostgreSQL-backed router, finalizing an already
completed session fails with the already-finalized error (HTTP 400, detail
Session already finalized), and a successful finalize marks the session
completed, so an immediately repeated finalize fails with that error. The
JSON-file-backed router has no such guard and silently re-finalizes, as the
counterexample shows. -/
theorem C5_finalize_twice (pfx : String) (s : DbSession) :
    (s.status = .completed → dbFinalize pfx s = .error .alreadyFinalized) ∧
    (s.status ≠ .completed →
      dbFinalize pfx s = .ok ({ s with status := .completed, finished := true },
        dbSelectedCodes pfx s.lines) ∧
      dbFinalize pfx { s with status := .completed, finished := true } =
        .error .alreadyFinalized) := by
  constructor
  · intro h
    unfold dbFinalize
    rw [if_pos h]
  · intro h
    constructor
    · unfold dbFinalize
      rw [if_neg h]
    · unfold dbFinalize
      rw [if_pos rfl]

/-- C5 witness: the theorem at a concrete in-progress session, finalized
once successfully and rejected on the second attempt. -/
theorem C5_witness :
    dbFinalize "PL-" ⟨.in_progress, true, false,
        [⟨7, 1, some "4006381333931", some "A1", 10, 10, "matched"⟩], []⟩ =
      .ok (⟨.completed, true, true,
        [⟨7, 1, some "4006381333931", some "A1", 10, 10, "matched"⟩], []⟩,
        dbSelectedCodes "PL-"
          [⟨7, 1, some "4006381333931", some "A1", 10, 10, "matched"⟩]) ∧
    dbFinalize "PL-" ⟨.completed, true, true,
        [⟨7, 1, some "4006381333931", some "A1", 10, 10, "matched"⟩], []⟩ =
      .error .alreadyFinalized :=
  (C5_finalize_twice "PL-" ⟨.in_progress, true, false,
    [⟨7, 1, some "4006381333931", some "A1", 10, 10, "matched"⟩], []⟩).2 (by decide)

/-- C5 counterexample: the claim as stated is false for the JSON-file-backed
finalize. A first finalize completes the session (the completed record is
written) but the session file stays in place unmarked, so a second finalize
succeeds again instead of failing with an already-finalized error; the
unused force request field underlines the missing guard. -/
theorem C5_counterexample :
    ((fileFinalizeOp "PL-" ⟨true,
        ⟨[⟨"4006381333931", "A1", "PL-A1", "t", 10, 10, "matched"⟩], []⟩,
        false⟩).1.completedWritten = true) ∧
    ((fileFinalizeOp "PL-" ⟨true,
        ⟨[⟨"4006381333931", "A1", "PL-A1", "t", 10, 10, "matched"⟩], []⟩,
        false⟩).2.isOk = true) ∧
    ((fileFinalizeOp "PL-" (fileFinalizeOp "PL-" ⟨true,
        ⟨[⟨"4006381333931", "A1", "PL-A1", "t", 10, 10, "matched"⟩], []⟩,
        false⟩).1).2.isOk = true) := by
  exact ⟨rfl, rfl, rfl⟩

/-- Selectability of a DB line for the finalize output: positive received
quantity and a non-null, nonempty supplier sku. -/
def dbLineSelectable (l : DbLine) : Bool :=
  decide (0 < l.received_qty) &&
    (match l.supplier_sku with
     | some k => !k.data.isEmpty
     | none => false)

/-- The received items fold of the file finalize, with a generalized
accumulator. -/
theorem fileReceivedItems_foldl (pfx : String) :
    ∀ (lines : List FileLine) (acc : List ReceivedItem),
      lines.foldl (fun acc l =>
        if 0 < l.received_qty then acc ++ [receivedItemOf pfx l] else acc) acc =
      acc ++ (lines.filter (fun l => decide (0 < l.received_qty))).map (receivedItemOf pfx) := by
  intro lines
  induction lines with
  | nil => intro acc; simp
  | cons hd rest ih =>
    intro acc
    rw [List.foldl_cons, List.filter_cons]
    by_cases h : 0 < hd.received_qty
    · rw [if_pos h, ih, if_pos (by simpa using h)]
      simp
    · rw [if_neg h, ih, if_neg (by simpa using h)]

/-- The selected codes fold of the DB finalize, with a generalized
accumulator. -/
theorem dbSelectedCodes_foldl (pfx : String) :
    ∀ (lines : List DbLine) (acc : List String),
      lines.foldl (fun acc l =>
        if 0 < l.received_qty then
          match l.supplier_sku with
          | some sku => if sku.data.isEmpty then acc else acc ++ [pfx ++ sku]
          | none => acc
        else acc) acc =
      acc ++ (lines.filter dbLineSelectable).map (fun l => pfx ++ l.supplier_sku.getD "") := by
  intro lines
  induction lines with
  | nil => intro acc; simp
  | cons hd rest ih =>
    intro acc
    rw [List.foldl_cons, List.filter_cons]
    by_cases h : 0 < hd.received_qty
    · cases hsku : hd.supplier_sku with
      | none =>
        rw [if_pos h, ih,
          if_neg (by simp [dbLineSelectable, hsku])]
      | some sku =>
        by_cases he : sku.data.isEmpty
        · rw [if_pos h]
          dsimp only
          rw [if_pos he, ih, if_neg (by simp [dbLineSelectable, hsku, he])]
        · rw [if_pos h]
          dsimp only
          rw [if_neg he, ih, if_pos (by simp [dbLineSelectable, hsku, he, h])]
          simp [hsku]
    · rw [if_neg h, ih,
        if_neg (by simp [dbLineSelectable, h])]

/-- C8 (amended): the file-backed finalize hands the ledger boundary exactly
one received item, carrying the line's product code and received quantity,
for every line with positive received quantity, and none for any other
line. The DB-backed finalize instead emits a product code only for lines
with positive received quantity whose supplier_sku is non-null and
nonempty; a positive line without a supplier sku contributes nothing, as
the counterexample shows. -/
theorem C8_finalize_output (pfx : String) :
    (∀ lines : List FileLine,
      fileReceivedItems pfx lines =
        (lines.filter (fun l => decide (0 < l.received_qty))).map (receivedItemOf pfx)) ∧
    (∀ s : DbSession, s.status ≠ .completed →
      dbFinalize pfx s = .ok ({ s with status := .completed, finished := true },
        (s.lines.filter dbLineSelectable).map (fun l => pfx ++ l.supplier_sku.getD ""))) := by
  constructor
  · intro lines
    unfold fileReceivedItems
    rw [fileReceivedItems_foldl]
    simp
  · intro s h
    unfold dbFinalize
    rw [if_neg h]
    unfold dbSelectedCodes
    rw [dbSelectedCodes_foldl]
    simp

/-- C8 witness: the DB clause of the theorem applied to a concrete session
with one positive line carrying a supplier sku. -/
theorem C8_witness :
    dbFinalize "PL-" ⟨.in_progress, true, false,
        [⟨7, 1, some "4006381333931", some "A1", 10, 10, "matched"⟩], []⟩ =
      .ok (⟨.completed, true, true,
        [⟨7, 1, some "4006381333931", some "A1", 10, 10, "matched"⟩], []⟩,
        ([⟨7, 1, some "4006381333931", some "A1", 10, 10, "matched"⟩].filter
            dbLineSelectable).map (fun l => "PL-" ++ l.supplier_sku.getD "")) :=
  (C8_finalize_output "PL-").2 ⟨.in_progress, true, false,
    [⟨7, 1, some "4006381333931", some "A1", 10, 10, "matched"⟩], []⟩ (by decide)

/-- C8 counterexample: the claim as stated is false for the DB-backed
finalize. A line with received quantity 5 but a null supplier_sku yields no
ledger entry at all: the selected code list of the finalize output is
empty. -/
theorem C8_counterexample :
    (0 : Rat) < 5 ∧
    dbSelectedCodes "PL-" [⟨8, 1, some "4006381333931", none, 10, 5, "partial"⟩] = [] := by
  exact ⟨by norm_num, rfl⟩

/-- Clearing the barcode-group primaries of a product leaves it with none. -/
theorem primaryGroupCount_clearGroup_self (store : List ProductIdentifier) (pid : Nat) :
    primaryGroupCount (clearBarcodeGroupPrimary store pid) pid = 0 := by
  unfold primaryGroupCount clearBarcodeGroupPrimary
  rw [List.countP_map]
  refine List.countP_eq_zero.mpr ?_
  intro i _
  simp only [Function.comp_apply]
  by_cases hc : i.product_id = pid ∧ i.is_primary = true ∧
      memBarcodeGroup i.identifier_type = true
  · rw [if_pos hc]
    simp [isGroupPrimaryOf]
  · rw [if_neg hc]
    simp only [isGroupPrimaryOf, decide_eq_true_eq]
    exact hc

/-- Clearing barcode-group primaries never increases any product's primary
count. -/
theorem primaryGroupCount_clearGroup_le (store : List ProductIdentifier) (pid q : Nat) :
    primaryGroupCount (clearBarcodeGroupPrimary store pid) q ≤
      primaryGroupCount store q := by
  unfold primaryGroupCount clearBarcodeGroupPrimary
  rw [List.countP_map]
  refine List.countP_mono_left ?_
  intro i _ hi
  simp only [Function.comp_apply] at hi
  by_cases hc : i.product_id = pid ∧ i.is_primary = true ∧
      memBarcodeGroup i.identifier_type = true
  · rw [if_pos hc] at hi
    simp [isGroupPrimaryOf] at hi
  · rwa [if_neg hc] at hi

/-- Clearing the primaries of a non-barcode type does not change any
product's barcode-group primary count. -/
theorem primaryGroupCount_clearType (store : List ProductIdentifier) (pid q : Nat)
    (t : IdentifierType) (ht : memBarcodeGroup t = false) :
    primaryGroupCount (clearTypePrimary store pid t) q = primaryGroupCount store q := by
  unfold primaryGroupCount clearTypePrimary
  rw [List.countP_map]
  refine List.countP_congr ?_
  intro i _
  simp only [Function.comp_apply]
  by_cases hc : i.product_id = pid ∧ i.is_primary = true ∧ i.identifier_type = t
  · rw [if_pos hc]
    simp [isGroupPrimaryOf, hc.2.2, ht]
  · rw [if_neg hc]

/-- Appending one row adds its own contribution to the primary count. -/
theorem primaryGroupCount_append (store : List ProductIdentifier)
    (n : ProductIdentifier) (q : Nat) :
    primaryGroupCount (store ++ [n]) q =
      primaryGroupCount store q + (if isGroupPrimaryOf q n then 1 else 0) := by
  unfold primaryGroupCount
  rw [List.countP_append, List.countP_singleton]

/-- One add_identifier call with an explicitly given type preserves the at
most one barcode-group primary invariant of every product. -/
theorem addStore_primary_le (store : List ProductIdentifier) (pid : Nat)
    (v : String) (t : IdentifierType) (sid : Option Nat) (prim : Bool)
    (nts : Option String) (h : ∀ q, primaryGroupCount store q ≤ 1) :
    ∀ q, primaryGroupCount (add_identifier store pid v (some t) sid prim nts).store q ≤ 1 := by
  intro q
  simp only [add_identifier]
  split
  · exact h q
  · split
    · exact h q
    · by_cases hp1 : prim = true ∧ memBarcodeGroup t = true
      · rw [if_pos hp1]
        split
        · rcases eq_or_ne q pid with rfl | hq
          · rw [primaryGroupCount_clearGroup_self]
            exact Nat.zero_le 1
          · exact le_trans (primaryGroupCount_clearGroup_le store pid q) (h q)
        · rw [primaryGroupCount_append]
          rcases eq_or_ne q pid with rfl | hq
          · rw [primaryGroupCount_clearGroup_self]
            split <;> simp
          · have hn : isGroupPrimaryOf q ⟨pid, t, pyStrip v, sid, prim, nts⟩ = false := by
              simp [isGroupPrimaryOf, hq.symm]
            rw [hn, if_neg (by simp), Nat.add_zero]
            exact le_trans (primaryGroupCount_clearGroup_le store pid q) (h q)
      · rw [if_neg hp1]
        by_cases hp2 : prim = true
        · rw [if_pos hp2]
          have ht : memBarcodeGroup t = false := by
            rcases Bool.eq_false_or_eq_true (memBarcodeGroup t) with h0 | h1
            · exact absurd ⟨hp2, h0⟩ hp1
            · exact h1
          split
          · rw [primaryGroupCount_clearType store pid q t ht]
            exact h q
          · rw [primaryGroupCount_append, primaryGroupCount_clearType store pid q t ht]
            have hn : isGroupPrimaryOf q ⟨pid, t, pyStrip v, sid, prim, nts⟩ = false := by
              simp [isGroupPrimaryOf, ht]
            rw [hn, if_neg (by simp), Nat.add_zero]
            exact h q
        · rw [if_neg hp2]
          split
          · exact h q
          · rw [primaryGroupCount_append]
            have hn : isGroupPrimaryOf q ⟨pid, t, pyStrip v, sid, prim, nts⟩ = false := by
              simp [isGroupPrimaryOf, hp2]
            rw [hn, if_neg (by simp), Nat.add_zero]
            exact h q

/-- One add_identifier call with any type argument preserves the invariant:
an omitted type is classified, which coincides with passing the classified
type explicitly. -/
theorem applyAddCall_primary_le (store : List ProductIdentifier) (c : AddCall)
    (h : ∀ q, primaryGroupCount store q ≤ 1) :
    ∀ q, primaryGroupCount (applyAddCall store c) q ≤ 1 := by
  obtain ⟨pid, v, ty, sid, prim, nts⟩ := c
  cases ty with
  | some t => exact addStore_primary_le store pid v t sid prim nts h
  | none =>
    exact addStore_primary_le store pid v (classify_barcode (pyStrip v)) sid prim nts h

/-- C7: starting from any store in which every product has at most one
primary identifier in the barcode group (ean, upc, unverified_barcode),
any sequence of add_identifier calls preserves that bound, because a
primary add first clears every existing primary of its uniqueness scope;
and concretely, adding an ean as primary and then a upc as primary for the
same product leaves that product with exactly one barcode-group primary. -/
theorem C7_primary_barcode_invariant :
    (∀ (store : List ProductIdentifier) (cs : List AddCall),
      (∀ pid, primaryGroupCount store pid ≤ 1) →
      ∀ pid, primaryGroupCount (applyAddCalls store cs) pid ≤ 1) ∧
    primaryGroupCount (applyAddCalls []
      [⟨1, "6927116185329", some .ean, none, true, none⟩,
       ⟨1, "036000291452", some .upc, none, true, none⟩]) 1 = 1 := by
  constructor
  · intro store cs
    induction cs generalizing store with
    | nil => intro h; simpa [applyAddCalls] using h
    | cons c rest ih =>
      intro h
      simpa [applyAddCalls] using ih (applyAddCall store c) (applyAddCall_primary_le store c h)
  · decide

/-- C7 witness: the invariant clause of the theorem instantiated at the
empty store and the concrete ean-then-upc primary call sequence. -/
theorem C7_witness :
    primaryGroupCount (applyAddCalls []
      [⟨1, "6927116185329", some .ean, none, true, none⟩,
       ⟨1, "036000291452", some .upc, none, true, none⟩]) 2 ≤ 1 :=
  C7_primary_barcode_invariant.1 []
    [⟨1, "6927116185329", some .ean, none, true, none⟩,
     ⟨1, "036000291452", some .upc, none, true, none⟩]
    (fun pid => by simp [primaryGroupCount]) 2

/-- Identifier types that carry a uniqueness constraint in the
product_identifiers table. manufacturer and custom rows are only indexed,
never unique. -/
def uniqueScoped : IdentifierType → Bool
  | .manufacturer => false
  | .custom => false
  | _ => true

/-- C6 (amended): for every identifier type that carries a uniqueness
constraint (ean, upc and internal_sku globally, unverified_barcode per
product, supplier_sku per supplier), calling add_identifier twice with
identical (product_id, value, type) arguments (and the default
is_primary = false) makes the second call fail with the uniqueness
violation raised by the store at flush, which is the generic database
IntegrityError: the repository defines no distinct DuplicateIdentifierError
class. The store after the failed second call equals the store after the
first call. For the unconstrained types manufacturer and custom the second
call succeeds and duplicates the row, as the counterexample shows. -/
theorem C6_duplicate_second_add (store : List ProductIdentifier) (pid : Nat)
    (v : String) (t : IdentifierType) (sid : Option Nat) (nts : Option String)
    (ht : uniqueScoped t = true) (n : ProductIdentifier)
    (hok : (add_identifier store pid v (some t) sid false nts).outcome = .ok n) :
    (add_identifier (add_identifier store pid v (some t) sid false nts).store
        pid v (some t) sid false nts).outcome = .error .uniqueViolation ∧
    (add_identifier (add_identifier store pid v (some t) sid false nts).store
        pid v (some t) sid false nts).store =
      (add_identifier store pid v (some t) sid false nts).store := by
  by_cases hv : (pyStrip v).data.isEmpty
  · exfalso
    revert hok
    simp only [add_identifier]
    rw [if_pos hv]
    simp
  · by_cases hsku : t = IdentifierType.supplier_sku ∧ sid = none
    · exfalso
      revert hok
      simp only [add_identifier]
      rw [if_neg hv, if_pos hsku]
      simp
    · by_cases hcf : flushConflict store ⟨pid, t, pyStrip v, sid, false, nts⟩ = true
      · exfalso
        revert hok
        simp only [add_identifier, Bool.false_eq_true, false_and, if_false]
        rw [if_neg hv, if_neg hsku, if_pos hcf]
        simp
      · have h1 : add_identifier store pid v (some t) sid false nts =
            ⟨store ++ [⟨pid, t, pyStrip v, sid, false, nts⟩],
              .ok ⟨pid, t, pyStrip v, sid, false, nts⟩⟩ := by
          simp only [add_identifier, Bool.false_eq_true, false_and, if_false]
          rw [if_neg hv, if_neg hsku, if_neg hcf]
        have hc2 : flushConflict (store ++ [⟨pid, t, pyStrip v, sid, false, nts⟩])
            ⟨pid, t, pyStrip v, sid, false, nts⟩ = true := by
          cases t
          case manufacturer => simp [uniqueScoped] at ht
          case custom => simp [uniqueScoped] at ht
          all_goals
            simp [flushConflict, List.any_append]
        rw [h1]
        constructor
        · show (add_identifier (store ++ [⟨pid, t, pyStrip v, sid, false, nts⟩])
            pid v (some t) sid false nts).outcome = Except.error IdError.uniqueViolation
          simp only [add_identifier, Bool.false_eq_true, false_and, if_false]
          rw [if_neg hv, if_neg hsku, if_pos hc2]
        · show (add_identifier (store ++ [⟨pid, t, pyStrip v, sid, false, nts⟩])
            pid v (some t) sid false nts).store =
              store ++ [⟨pid, t, pyStrip v, sid, false, nts⟩]
          simp only [add_identifier, Bool.false_eq_true, false_and, if_false]
          rw [if_neg hv, if_neg hsku, if_pos hc2]

/-- C6 witness: the theorem at the empty store with a concrete ean row added
twice. -/
theorem C6_witness :
    (add_identifier (add_identifier [] 1 "12345" (some .ean) none false none).store
        1 "12345" (some .ean) none false none).outcome = .error .uniqueViolation ∧
    (add_identifier (add_identifier [] 1 "12345" (some .ean) none false none).store
        1 "12345" (some .ean) none false none).store =
      (add_identifier [] 1 "12345" (some .ean) none false none).store :=
  C6_duplicate_second_add [] 1 "12345" IdentifierType.ean none none (by decide)
    ⟨1, .ean, "12345", none, false, none⟩ rfl

/-- C6 counterexample: the claim as stated is false for the custom type.
Adding the identical (product_id, value, custom) row twice raises nothing:
no unique index covers custom rows, so the second call succeeds and the
store holds the row twice. -/
theorem C6_counterexample :
    (add_identifier (add_identifier [] 1 "ACME-X1" (some .custom) none false none).store
        1 "ACME-X1" (some .custom) none false none).outcome =
      .ok ⟨1, .custom, "ACME-X1", none, false, none⟩ ∧
    (add_identifier (add_identifier [] 1 "ACME-X1" (some .custom) none false none).store
        1 "ACME-X1" (some .custom) none false none).store =
      [⟨1, .custom, "ACME-X1", none, false, none⟩,
       ⟨1, .custom, "ACME-X1", none, false, none⟩] :=
  ⟨rfl, rfl⟩

/-- Modelled from the spec (section 4.6 matching rule): exact string
equality of the scanned code with the line's ean, its supplier sku (scm)
or its derived product code, with no stripping and no fuzziness. -/
def specLineMatch (code : String) (l : FileLine) : Bool :=
  decide (l.ean = code) || decide (l.scm = code) || decide (l.product_code = code)

/-- A line whose identifier fields carry no surrounding whitespace, as
lines created from the invoice CSV always do (every header value is
stripped on parse and the product code is built from stripped parts). -/
def trimmedLine (l : FileLine) : Prop :=
  pyStrip l.ean = l.ean ∧ pyStrip l.scm = l.scm ∧ pyStrip l.product_code = l.product_code

/-- Modelled from the spec (section 4.6): update the first line in line
order that the exact-equality rule matches, adding the quantity and
recomputing the section 4.4 status; no line matched means no line changes. -/
def specScanLines (code : String) (qty : Rat) : List FileLine → Option (List FileLine)
  | [] => none
  | l :: rest =>
    if specLineMatch code l then some (fileScanUpdate qty l :: rest)
    else (specScanLines code qty rest).map (fun ls => l :: ls)

/-- On trimmed lines and a trimmed nonempty code, the source's matcher
coincides with the spec's exact-equality matcher. -/
theorem fileMatches_eq_spec (code : String) (l : FileLine)
    (hc : code.data ≠ []) (hl : trimmedLine l) :
    fileMatches code l = specLineMatch code l := by
  unfold fileMatches specLineMatch
  rw [hl.1, hl.2.1, hl.2.2]
  have he : code.data.isEmpty = false := by
    cases hd : code.data
    · exact absurd hd hc
    · rfl
  rw [he]
  simp

/-- The source's scan walk refines the spec's: on trimmed lines it updates
exactly the first exact-equality match. -/
theorem fileScanLines_refines (code : String) (qty : Rat) :
    ∀ lines : List FileLine, code.data ≠ [] → (∀ l ∈ lines, trimmedLine l) →
      Option.map Prod.fst (fileScanLines code qty lines) = specScanLines code qty lines := by
  intro lines hc
  induction lines with
  | nil => intro _; rfl
  | cons hd rest ih =>
    intro h
    rw [fileScanLines, specScanLines,
      ← fileMatches_eq_spec code hd hc (h hd (List.mem_cons_self hd rest))]
    by_cases hm : fileMatches code hd = true
    · rw [if_pos hm, if_pos hm]
      rfl
    · rw [if_neg hm, if_neg hm, ← ih (fun l hl => h l (List.mem_cons_of_mem hd hl))]
      cases fileScanLines code qty rest with
      | none => rfl
      | some v => obtain ⟨r1, st⟩ := v; rfl

/-- Scanning a session whose head line matches: the head is updated, the
rest untouched, one scan entry appended. -/
theorem fileScan_head_match (l : FileLine) (rest : List FileLine)
    (scans : List FileScanRec) (code0 : String) (qty : Rat)
    (h : fileMatches (pyStrip code0) l = true) :
    fileScan ⟨l :: rest, scans⟩ code0 qty =
      (⟨fileScanUpdate qty l :: rest,
        scans ++ [⟨none, none, some (pyStrip code0), some qty, none, none, none,
          some (status_for (l.received_qty + qty) l.ordered_qty)⟩]⟩,
        status_for (l.received_qty + qty) l.ordered_qty) := by
  simp only [fileScan, fileScanLines]
  rw [if_pos h]

/-- C3 (amended): in the file-backed scan the matched line is the first line
in line order whose ean, scm or stored product code is exactly
string-equal to the (stripped, nonempty) scanned code, its received
quantity grows by the scanned quantity and its status is recomputed, which
the concrete scenario walks through: one line ordered 10, scans of
quantity 4, 6 and 1 yield received 4 partial, 10 matched, 11 overage. In
the DB-backed scan the claim's matching rule fails: only the ean and the
supplier sku are consulted, never the derived product code, as the
matcher characterization here and the counterexample show. -/
theorem C3_scan_matching :
    (∀ (s : FileSession) (code : String) (qty : Rat),
      pyStrip code = code → code.data ≠ [] → (∀ l ∈ s.lines, trimmedLine l) →
      (fileScan s code qty).1.lines = (specScanLines code qty s.lines).getD s.lines) ∧
    (∀ (code : String) (l : DbLine), dbLineMatches code l = true →
      (∃ e, l.ean = some e ∧ pyStrip e = code) ∨
      (∃ k, l.supplier_sku = some k ∧ pyStrip k = code)) ∧
    (fileScan ⟨[⟨"6927116185329", "A1", "PL-A1", "t", 10, 0, "pending"⟩], []⟩
        "6927116185329" 4 =
      (⟨[⟨"6927116185329", "A1", "PL-A1", "t", 10, 4, "partial"⟩],
        [⟨none, none, some "6927116185329", some 4, none, none, none, some "partial"⟩]⟩,
        "partial")) ∧
    (fileScan ⟨[⟨"6927116185329", "A1", "PL-A1", "t", 10, 4, "partial"⟩],
        [⟨none, none, some "6927116185329", some 4, none, none, none, some "partial"⟩]⟩
        "6927116185329" 6 =
      (⟨[⟨"6927116185329", "A1", "PL-A1", "t", 10, 10, "matched"⟩],
        [⟨none, none, some "6927116185329", some 4, none, none, none, some "partial"⟩,
         ⟨none, none, some "6927116185329", some 6, none, none, none, some "matched"⟩]⟩,
        "matched")) ∧
    (fileScan ⟨[⟨"6927116185329", "A1", "PL-A1", "t", 10, 10, "matched"⟩],
        [⟨none, none, some "6927116185329", some 4, none, none, none, some "partial"⟩,
         ⟨none, none, some "6927116185329", some 6, none, none, none, some "matched"⟩]⟩
        "6927116185329" 1 =
      (⟨[⟨"6927116185329", "A1", "PL-A1", "t", 10, 11, "overage"⟩],
        [⟨none, none, some "6927116185329", some 4, none, none, none, some "partial"⟩,
         ⟨none, none, some "6927116185329", some 6, none, none, none, some "matched"⟩,
         ⟨none, none, some "6927116185329", some 1, none, none, none, some "overage"⟩]⟩,
        "overage")) := by
  refine ⟨?_, ?_, ?_, ?_, ?_⟩
  · intro s code qty hps hc h
    simp only [fileScan, hps]
    have hr := fileScanLines_refines code qty s.lines hc h
    cases hsc : fileScanLines code qty s.lines with
    | none =>
      rw [hsc] at hr
      rw [← hr]
      rfl
    | some v =>
      obtain ⟨lines1, st⟩ := v
      rw [hsc] at hr
      rw [← hr]
      rfl
  · intro code l h
    simp only [dbLineMatches, Bool.and_eq_true, Bool.or_eq_true] at h
    obtain ⟨-, h⟩ := h
    rcases h with h | h
    · cases he : l.ean with
      | none => rw [he] at h; simp at h
      | some e =>
        rw [he] at h
        simp only [Bool.and_eq_true, decide_eq_true_eq] at h
        exact Or.inl ⟨e, rfl, h.2⟩
    · cases hk : l.supplier_sku with
      | none => rw [hk] at h; simp at h
      | some k =>
        rw [hk] at h
        simp only [Bool.and_eq_true, decide_eq_true_eq] at h
        exact Or.inr ⟨k, rfl, h.2⟩
  · rw [fileScan_head_match _ _ _ _ _ (by decide)]
    simp only [fileScanUpdate]
    rw [show (0 : Rat) + 4 = 4 by norm_num]
    decide
  · rw [fileScan_head_match _ _ _ _ _ (by decide)]
    simp only [fileScanUpdate]
    rw [show (4 : Rat) + 6 = 10 by norm_num]
    decide
  · rw [fileScan_head_match _ _ _ _ _ (by decide)]
    simp only [fileScanUpdate]
    rw [show (10 : Rat) + 1 = 11 by norm_num]
    decide

/-- C3 witness: the refinement clause of the theorem at a concrete session
and code. -/
theorem C3_witness :
    (fileScan ⟨[⟨"6927116185329", "A1", "PL-A1", "t", 10, 0, "pending"⟩], []⟩
        "XYZ" 1).1.lines =
      (specScanLines "XYZ" 1
        [⟨"6927116185329", "A1", "PL-A1", "t", 10, 0, "pending"⟩]).getD
        [⟨"6927116185329", "A1", "PL-A1", "t", 10, 0, "pending"⟩] :=
  C3_scan_matching.1 ⟨[⟨"6927116185329", "A1", "PL-A1", "t", 10, 0, "pending"⟩], []⟩
    "XYZ" 1 rfl (by decide)
    (by
      intro l hl
      simp only [List.mem_singleton] at hl
      subst hl
      exact ⟨rfl, rfl, rfl⟩)

/-- C3 counterexample: the claim as stated is false for the DB-backed scan.
The scanned code PL-A1 is exactly the line's derived product code (prefix
PL- plus sku A1), yet the scan matches nothing: the result is unexpected
and the line's received quantity stays 0. -/
theorem C3_counterexample :
    ("PL-" ++ "A1" : String) = "PL-A1" ∧
    (dbScan ⟨.in_progress, true, false,
        [⟨7, 1, some "6927116185329", some "A1", 10, 0, "pending"⟩], []⟩
      "PL-A1" 1 "scanner").2 = "unexpected" ∧
    (dbScan ⟨.in_progress, true, false,
        [⟨7, 1, some "6927116185329", some "A1", 10, 0, "pending"⟩], []⟩
      "PL-A1" 1 "scanner").1.lines =
      [⟨7, 1, some "6927116185329", some "A1", 10, 0, "pending"⟩] := by
  exact ⟨rfl, rfl, rfl⟩
